import Mathlib

/-!
Shallow embedding of the payment gateway's transaction engine:
the transaction service (`app/services/transaction_service.py`), the
settlement worker tasks (`app/tasks/transaction_tasks.py`), the webhook
reconciler task (`app/tasks/webhook_tasks.py`), the sliding-window rate
limiter (`app/services/rate_limiter.py`) and the deposit/withdrawal
intake endpoints (`app/api/v1/deposits.py`, `app/api/v1/withdrawals.py`).

Money amounts (Python `Decimal` with two fractional digits) are embedded
as rationals; timestamps (Python `time.time()` floats) as rationals.
Python exceptions are embedded as an explicit error type carried by
`Except`; a task's "escaped" field records the exception, if any, that
propagates out of the Celery task body (Celery's `autoretry_for` only
fires on an exception that escapes the body).
-/

namespace PaymentGateway

/-- `TransactionType` enumeration (`app/models/transaction.py`). -/
inductive TransactionType where
  | deposit
  | withdrawal
deriving DecidableEq, Repr, BEq

/-- `TransactionStatus` enumeration (`app/models/transaction.py`). -/
inductive TransactionStatus where
  | pending
  | processing
  | success
  | failed
deriving DecidableEq, Repr, BEq

/-- `User` row (`app/models/user.py`): id and balance (Numeric 15,2). -/
structure User where
  id : Nat
  balance : ℚ
deriving DecidableEq, Repr, BEq

/-- `Transaction` row (`app/models/transaction.py`). -/
structure Transaction where
  id : Nat
  user_id : Nat
  type : TransactionType
  status : TransactionStatus
  amount : ℚ
  bank_reference : Option String
  error_message : Option String
  idempotency_key : Option String
deriving DecidableEq, Repr, BEq

/-- Response bodies cached by the idempotency store / returned by intake.
`txResponse` stands for the serialized Deposit/Withdrawal response of a
transaction; `insufficientBalance` for the 400 error dict
`{"error": "insufficient_balance", "message": ...}` built in
`app/api/v1/withdrawals.py`; `text` for a plain detail string. -/
inductive Body where
  | txResponse (t : Transaction)
  | insufficientBalance (message : String)
  | text (s : String)
deriving DecidableEq, Repr, BEq

/-- `IdempotencyKey` row (`app/models/idempotency.py`): unique on
(user_id, key), stores the first response's status code and body. -/
structure IdempotencyKey where
  user_id : Nat
  key : String
  response_status : Nat
  response_body : Body
deriving DecidableEq, Repr, BEq

/-- The database state: users, transactions, idempotency records, and the
autoincrement counter for transaction ids. -/
structure DB where
  users : List User
  transactions : List Transaction
  idempotency_keys : List IdempotencyKey
  next_tx_id : Nat
deriving DecidableEq, Repr, BEq

/-- Python exceptions raised by the embedded code.  The bank errors come
from `app/services/bank_simulator.py`; `valueError` and
`insufficientBalance` from `app/services/transaction_service.py`;
`duplicateKey` stands for the IntegrityError of the
(user_id, key) unique constraint. -/
inductive Exc where
  | valueError (msg : String)
  | insufficientBalance (msg : String)
  | bankTimeout
  | bankSystemUnavailable
  | bankInsufficientFunds
  | bankInvalidRequest
  | duplicateKey
deriving DecidableEq, Repr, BEq

/-- `str(e)` of each embedded exception, matching the messages the source
constructs them with. -/
def Exc.message : Exc → String
  | .valueError m => m
  | .insufficientBalance m => m
  | .bankTimeout => "Bank API request timed out"
  | .bankSystemUnavailable => "Bank system is temporarily unavailable"
  | .bankInsufficientFunds => "Insufficient funds in bank account"
  | .bankInvalidRequest => "Invalid request parameters"
  | .duplicateKey => "UNIQUE constraint failed: idempotency_keys.user_id, idempotency_keys.key"

/-- Python truthiness of an `Optional[str]` argument (`if bank_reference:`):
`None` and the empty string are falsy. -/
def optTruthy : Option String → Bool
  | none => false
  | some s => s != ""

/-- The message of `InsufficientBalanceError` as built in
`transaction_service.py` (`Available: {balance}, Required: {amount}`);
the numeral rendering is this model's. -/
def insufficientBalanceMsg (available required : ℚ) : String :=
  "Insufficient balance. Available: " ++ toString available ++
    ", Required: " ++ toString required

/-- Write back a transaction row: the ORM flush replaces the row with the
matching id. -/
def setTx (db : DB) (transaction_id : Nat) (t1 : Transaction) : DB :=
  { db with transactions :=
      db.transactions.map (fun u => if u.id == transaction_id then t1 else u) }

/-- Write back a user row. -/
def setUser (db : DB) (user_id : Nat) (u1 : User) : DB :=
  { db with users := db.users.map (fun v => if v.id == user_id then u1 else v) }

/-- The field writes `update_transaction_status` performs on the loaded
row: status unconditionally, bank_reference / error_message only when
truthy. -/
def applyUpd (t : Transaction) (status : TransactionStatus)
    (bank_reference error_message : Option String) : Transaction :=
  { t with
    status := status
    bank_reference := if optTruthy bank_reference then bank_reference else t.bank_reference
    error_message := if optTruthy error_message then error_message else t.error_message }

namespace TransactionService

/-- `TransactionService.check_idempotency_key`: first record matching the
(user_id, key) pair, if any. -/
def check_idempotency_key (db : DB) (user_id : Nat) (idempotency_key : String) :
    Option IdempotencyKey :=
  db.idempotency_keys.find? (fun k => k.user_id == user_id && k.key == idempotency_key)

/-- `TransactionService.save_idempotency_key`: inserts the record; the
commit violates the (user_id, key) unique constraint when the pair is
already present (this is how a concurrent duplicate surfaces). -/
def save_idempotency_key (db : DB) (user_id : Nat) (idempotency_key : String)
    (status_code : Nat) (response_body : Body) : Except Exc (DB × IdempotencyKey) :=
  if db.idempotency_keys.any (fun k => k.user_id == user_id && k.key == idempotency_key) then
    .error .duplicateKey
  else
    let rec_ : IdempotencyKey :=
      { user_id := user_id, key := idempotency_key,
        response_status := status_code, response_body := response_body }
    .ok ({ db with idempotency_keys := db.idempotency_keys ++ [rec_] }, rec_)

/-- `TransactionService.create_deposit`: persists a pending deposit. -/
def create_deposit (db : DB) (user_id : Nat) (amount : ℚ)
    (idempotency_key : String) : DB × Transaction :=
  let t : Transaction :=
    { id := db.next_tx_id, user_id := user_id, type := .deposit,
      status := .pending, amount := amount, bank_reference := none,
      error_message := none, idempotency_key := some idempotency_key }
  ({ db with
     transactions := db.transactions ++ [t]
     next_tx_id := db.next_tx_id + 1 }, t)

/-- `TransactionService.create_withdrawal`: checks the user's balance under
a row lock and persists a pending withdrawal, or raises
`InsufficientBalanceError` / `ValueError`. -/
def create_withdrawal (db : DB) (user_id : Nat) (amount : ℚ)
    (idempotency_key : String) : Except Exc (DB × Transaction) :=
  match db.users.find? (fun u => u.id == user_id) with
  | none => .error (.valueError ("User " ++ toString user_id ++ " not found"))
  | some user =>
    if user.balance < amount then
      .error (.insufficientBalance (insufficientBalanceMsg user.balance amount))
    else
      let t : Transaction :=
        { id := db.next_tx_id, user_id := user_id, type := .withdrawal,
          status := .pending, amount := amount, bank_reference := none,
          error_message := none, idempotency_key := some idempotency_key }
      .ok ({ db with
             transactions := db.transactions ++ [t]
             next_tx_id := db.next_tx_id + 1 }, t)

/-- `TransactionService.get_transaction`: lookup by id. -/
def get_transaction (db : DB) (transaction_id : Nat) : Option Transaction :=
  db.transactions.find? (fun t => t.id == transaction_id)

/-- `TransactionService.update_transaction_status`: loads the row under a
lock, sets the status unconditionally, and sets bank_reference /
error_message only when the passed value is truthy.  There is no
terminal-state check. -/
def update_transaction_status (db : DB) (transaction_id : Nat)
    (status : TransactionStatus) (bank_reference : Option String)
    (error_message : Option String) : Except Exc (DB × Transaction) :=
  match db.transactions.find? (fun t => t.id == transaction_id) with
  | none => .error (.valueError ("Transaction " ++ toString transaction_id ++ " not found"))
  | some t =>
    let t1 := applyUpd t status bank_reference error_message
    .ok (setTx db transaction_id t1, t1)

/-- `TransactionService.update_user_balance`: loads the user under a lock;
"add" credits; "subtract" raises `InsufficientBalanceError` when
`balance < amount` and otherwise debits; any other operation string
raises `ValueError`. -/
def update_user_balance (db : DB) (user_id : Nat) (amount : ℚ)
    (operation : String) : Except Exc (DB × User) :=
  match db.users.find? (fun u => u.id == user_id) with
  | none => .error (.valueError ("User " ++ toString user_id ++ " not found"))
  | some user =>
    if operation == "add" then
      let u1 : User := { user with balance := user.balance + amount }
      .ok (setUser db user_id u1, u1)
    else if operation == "subtract" then
      if user.balance < amount then
        .error (.insufficientBalance (insufficientBalanceMsg user.balance amount))
      else
        let u1 : User := { user with balance := user.balance - amount }
        .ok (setUser db user_id u1, u1)
    else
      .error (.valueError ("Invalid operation: " ++ operation))

end TransactionService

/-- Outcome of one bank-simulator call (`app/services/bank_simulator.py`):
a fresh bank reference, or one of the four typed errors. -/
inductive BankOutcome where
  | success (bank_reference : String)
  | timeout
  | systemUnavailable
  | insufficientFunds
  | invalidRequest
deriving DecidableEq, Repr, BEq

/-- The exception a failing bank outcome raises. -/
def BankOutcome.exc : BankOutcome → Exc
  | .success _ => .bankInvalidRequest
  | .timeout => .bankTimeout
  | .systemUnavailable => .bankSystemUnavailable
  | .insufficientFunds => .bankInsufficientFunds
  | .invalidRequest => .bankInvalidRequest

/-- Ghost events recording, in program order, each status write and each
ledger mutation a task performs. -/
inductive Event where
  | statusUpdate (txid : Nat) (st : TransactionStatus)
      (bank_reference : Option String) (error_message : Option String)
  | balanceUpdate (uid : Nat) (operation : String) (amount : ℚ)
deriving DecidableEq, Repr, BEq

/-- Result of running one Celery task body: the database afterwards, the
ordered event trace, and the exception (if any) that propagated out of
the body.  Celery's `autoretry_for` schedules a retry only when a listed
exception escapes the body. -/
structure TaskRun where
  db : DB
  events : List Event
  escaped : Option Exc
deriving DecidableEq, Repr, BEq

open TransactionService

/-- The worker tasks' outer `except Exception` handler: any exception
reaching it is converted into a `failed` transition with message
`"Internal error: ..."`; the task body then returns normally (so Celery
sees no exception).  If this final update itself raises, that exception
escapes the body. -/
def outerHandler (db : DB) (transaction_id : Nat) (e : Exc) (evs : List Event) : TaskRun :=
  let msg := "Internal error: " ++ e.message
  match update_transaction_status db transaction_id .failed none (some msg) with
  | .ok (db1, _) =>
    ⟨db1, evs ++ [.statusUpdate transaction_id .failed none (some msg)], none⟩
  | .error e2 => ⟨db, evs, some e2⟩

/-- `process_deposit_task` (`app/tasks/transaction_tasks.py`): no-ops on a
missing or terminal transaction, marks `processing`, calls the bank, and
on success marks `success` (with the bank reference) and then credits the
ledger; a transient bank error sets the row back to `pending` and
re-raises — but the re-raised exception is caught by the task's own outer
`except Exception`, which marks the row `failed`; a permanent bank error
marks `failed` directly. -/
def process_deposit_task (db : DB) (transaction_id : Nat) (bank : BankOutcome) : TaskRun :=
  match get_transaction db transaction_id with
  | none => ⟨db, [], none⟩
  | some transaction =>
    if transaction.status == .success || transaction.status == .failed then
      ⟨db, [], none⟩
    else
      match update_transaction_status db transaction_id .processing none none with
      | .error e => outerHandler db transaction_id e []
      | .ok (db1, _) =>
        let ev1 : List Event := [.statusUpdate transaction_id .processing none none]
        match bank with
        | .success ref =>
          match update_transaction_status db1 transaction_id .success (some ref) none with
          | .error e => outerHandler db1 transaction_id e ev1
          | .ok (db2, _) =>
            let ev2 := ev1 ++ [.statusUpdate transaction_id .success (some ref) none]
            match update_user_balance db2 transaction.user_id transaction.amount "add" with
            | .error e => outerHandler db2 transaction_id e ev2
            | .ok (db3, _) =>
              ⟨db3, ev2 ++ [.balanceUpdate transaction.user_id "add" transaction.amount], none⟩
        | .timeout | .systemUnavailable =>
          let e := bank.exc
          match update_transaction_status db1 transaction_id .pending none (some e.message) with
          | .error e2 => outerHandler db1 transaction_id e2 ev1
          | .ok (db2, _) =>
            outerHandler db2 transaction_id e
              (ev1 ++ [.statusUpdate transaction_id .pending none (some e.message)])
        | .insufficientFunds | .invalidRequest =>
          let e := bank.exc
          match update_transaction_status db1 transaction_id .failed none (some e.message) with
          | .error e2 => outerHandler db1 transaction_id e2 ev1
          | .ok (db2, _) =>
            ⟨db2, ev1 ++ [.statusUpdate transaction_id .failed none (some e.message)], none⟩

/-- `process_withdrawal_task` (`app/tasks/transaction_tasks.py`): like the
deposit task but, on bank success, debits the ledger first (which may
raise `InsufficientBalanceError`, caught only by the outer handler) and
only then marks `success` with the bank reference. -/
def process_withdrawal_task (db : DB) (transaction_id : Nat) (bank : BankOutcome) : TaskRun :=
  match get_transaction db transaction_id with
  | none => ⟨db, [], none⟩
  | some transaction =>
    if transaction.status == .success || transaction.status == .failed then
      ⟨db, [], none⟩
    else
      match update_transaction_status db transaction_id .processing none none with
      | .error e => outerHandler db transaction_id e []
      | .ok (db1, _) =>
        let ev1 : List Event := [.statusUpdate transaction_id .processing none none]
        match bank with
        | .success ref =>
          match update_user_balance db1 transaction.user_id transaction.amount "subtract" with
          | .error e => outerHandler db1 transaction_id e ev1
          | .ok (db2, _) =>
            let ev2 := ev1 ++ [.balanceUpdate transaction.user_id "subtract" transaction.amount]
            match update_transaction_status db2 transaction_id .success (some ref) none with
            | .error e => outerHandler db2 transaction_id e ev2
            | .ok (db3, _) =>
              ⟨db3, ev2 ++ [.statusUpdate transaction_id .success (some ref) none], none⟩
        | .timeout | .systemUnavailable =>
          let e := bank.exc
          match update_transaction_status db1 transaction_id .pending none (some e.message) with
          | .error e2 => outerHandler db1 transaction_id e2 ev1
          | .ok (db2, _) =>
            outerHandler db2 transaction_id e
              (ev1 ++ [.statusUpdate transaction_id .pending none (some e.message)])
        | .insufficientFunds | .invalidRequest =>
          let e := bank.exc
          match update_transaction_status db1 transaction_id .failed none (some e.message) with
          | .error e2 => outerHandler db1 transaction_id e2 ev1
          | .ok (db2, _) =>
            ⟨db2, ev1 ++ [.statusUpdate transaction_id .failed none (some e.message)], none⟩

/-- `process_webhook_task` (`app/tasks/webhook_tasks.py`): no-ops on a
missing or terminal transaction; for a "success" callback applies the
ledger mutation matching the transaction's kind, then marks the terminal
status, passing the payload's bank reference and error message to
`update_transaction_status` for BOTH outcomes.  Its `except Exception`
re-raises, so a ledger failure escapes the body. -/
def process_webhook_task (db : DB) (transaction_id : Nat) (bank_reference : String)
    (status : String) (error_message : Option String) : TaskRun :=
  match get_transaction db transaction_id with
  | none => ⟨db, [], none⟩
  | some transaction =>
    if transaction.status == .success || transaction.status == .failed then
      ⟨db, [], none⟩
    else
      let new_status : TransactionStatus := if status == "success" then .success else .failed
      let ledger : Except Exc (DB × List Event) :=
        if status == "success" then
          if transaction.type == .deposit then
            match update_user_balance db transaction.user_id transaction.amount "add" with
            | .error e => .error e
            | .ok (db1, _) => .ok (db1, [.balanceUpdate transaction.user_id "add" transaction.amount])
          else
            match update_user_balance db transaction.user_id transaction.amount "subtract" with
            | .error e => .error e
            | .ok (db1, _) => .ok (db1, [.balanceUpdate transaction.user_id "subtract" transaction.amount])
        else
          .ok (db, [])
      match ledger with
      | .error e => ⟨db, [], some e⟩
      | .ok (db1, evs1) =>
        match update_transaction_status db1 transaction_id new_status
            (some bank_reference) error_message with
        | .error e => ⟨db1, evs1, some e⟩
        | .ok (db2, _) =>
          ⟨db2, evs1 ++ [.statusUpdate transaction_id new_status
            (some bank_reference) error_message], none⟩

/-- Python `int()` truncation toward zero on a rational. -/
def pyInt (x : ℚ) : ℤ := if 0 ≤ x then ⌊x⌋ else ⌈x⌉

/-- Result tuple of `RateLimiter.check_rate_limit`:
(is_allowed, remaining, reset_timestamp, retry_after). -/
structure RateLimitResult where
  is_allowed : Bool
  remaining : Nat
  reset_timestamp : ℤ
  retry_after : ℚ
deriving DecidableEq, Repr, BEq

namespace RateLimiter

/-- The `zremrangebyscore(key, 0, now - window_seconds)` step: survivors of
the eviction. -/
def evictedWindow (window : List ℚ) (window_seconds now : ℚ) : List ℚ :=
  window.filter (fun t => decide (¬ (0 ≤ t ∧ t ≤ now - window_seconds)))

/-- `RateLimiter.check_rate_limit` (`app/services/rate_limiter.py`).
The key's Redis sorted set is embedded as the list of member timestamps
(members are `str(now)` strings, so equal timestamps collapse to one
member).  The pipeline removes scores in `[0, now - window_seconds]`,
counts what remains, adds the current timestamp, and refreshes expiry;
the decision fields are computed from the post-eviction count. -/
def check_rate_limit (window : List ℚ) (limit : Nat) (window_seconds : ℚ)
    (now : ℚ) : RateLimitResult × List ℚ :=
  let kept := evictedWindow window window_seconds now
  let current_count := kept.length
  let new_window := if now ∈ kept then kept else kept ++ [now]
  ({ is_allowed := current_count < limit
     remaining := limit - current_count - 1
     reset_timestamp := pyInt (now + window_seconds)
     retry_after := if limit ≤ current_count then window_seconds else 0 },
   new_window)

/-- Fold `check_rate_limit` over a sequence of request times against one
key, collecting each call's (is_allowed, retry_after). -/
def rlRun (limit : Nat) (window_seconds : ℚ) :
    List ℚ → List ℚ → List (Bool × ℚ) × List ℚ
  | window, [] => ([], window)
  | window, t :: ts =>
    let r := check_rate_limit window limit window_seconds t
    let p := rlRun limit window_seconds r.2 ts
    ((r.1.is_allowed, r.1.retry_after) :: p.1, p.2)

end RateLimiter

/-- What an intake endpoint hands back: the cached replay, a fresh 202
response, or an `HTTPException` / middleware error response. -/
inductive ApiResult where
  | cached (status_code : Nat) (body : Body)
  | accepted (status_code : Nat) (body : Body)
  | httpError (status_code : Nat) (detail : Body)
deriving DecidableEq, Repr, BEq

/-- Result of one intake request: database afterwards, transaction ids
enqueued for the settlement worker, and the HTTP result. -/
structure ApiRun where
  db : DB
  queued : List Nat
  result : ApiResult
deriving DecidableEq, Repr, BEq

open TransactionService

/-- `create_deposit` endpoint (`app/api/v1/deposits.py`): returns the
cached response when the (user, key) pair is already stored; otherwise
creates the pending transaction, enqueues the settlement job, and saves
the 202 response under the key.  `concurrent` injects an idempotency
record committed by a racing duplicate request between the check and our
save; any exception in the try-block (in particular the unique-constraint
violation at save time) is caught by `except Exception` and surfaced as
a 500 `HTTPException`. -/
def create_deposit_api (db : DB) (user_id : Nat) (amount : ℚ)
    (idempotency_key : String) (concurrent : Option IdempotencyKey) : ApiRun :=
  match check_idempotency_key db user_id idempotency_key with
  | some existing_key =>
    ⟨db, [], .cached existing_key.response_status existing_key.response_body⟩
  | none =>
    let db0 := match concurrent with
      | some k => { db with idempotency_keys := db.idempotency_keys ++ [k] }
      | none => db
    let (db1, transaction) := create_deposit db0 user_id amount idempotency_key
    let body := Body.txResponse transaction
    match save_idempotency_key db1 user_id idempotency_key 202 body with
    | .error _ =>
      ⟨db1, [transaction.id], .httpError 500 (.text "Failed to create deposit transaction")⟩
    | .ok (db2, _) => ⟨db2, [transaction.id], .accepted 202 body⟩

/-- `create_withdrawal` endpoint (`app/api/v1/withdrawals.py`): cached
replay when the pair is stored; otherwise runs the service-side balance
check, and on `InsufficientBalanceError` caches a 400 error body under
the key and raises a 400 `HTTPException`; other exceptions become a 500.
If the save inside the 400 handler itself raises, the exception escapes
the endpoint and the error middleware answers 500. -/
def create_withdrawal_api (db : DB) (user_id : Nat) (amount : ℚ)
    (idempotency_key : String) (concurrent : Option IdempotencyKey) : ApiRun :=
  match check_idempotency_key db user_id idempotency_key with
  | some existing_key =>
    ⟨db, [], .cached existing_key.response_status existing_key.response_body⟩
  | none =>
    let db0 := match concurrent with
      | some k => { db with idempotency_keys := db.idempotency_keys ++ [k] }
      | none => db
    match create_withdrawal db0 user_id amount idempotency_key with
    | .error (.insufficientBalance m) =>
      let error_response := Body.insufficientBalance m
      match save_idempotency_key db0 user_id idempotency_key 400 error_response with
      | .error _ =>
        ⟨db0, [], .httpError 500 (.text "An unexpected error occurred. Please try again later.")⟩
      | .ok (db1, _) => ⟨db1, [], .httpError 400 error_response⟩
    | .error _ =>
      ⟨db0, [], .httpError 500 (.text "Failed to create withdrawal transaction")⟩
    | .ok (db1, transaction) =>
      let body := Body.txResponse transaction
      match save_idempotency_key db1 user_id idempotency_key 202 body with
      | .error _ =>
        ⟨db1, [transaction.id], .httpError 500 (.text "Failed to create withdrawal transaction")⟩
      | .ok (db2, _) => ⟨db2, [transaction.id], .accepted 202 body⟩

/-! ### Lemmas about the embedded store operations -/

/-- Balance of a user as stored, if the user exists. -/
def userBalance (db : DB) (user_id : Nat) : Option ℚ :=
  (db.users.find? (fun v => v.id == user_id)).map (·.balance)

/-- Bank reference of a transaction as stored, if the row exists. -/
def txBankRef (db : DB) (transaction_id : Nat) : Option (Option String) :=
  (TransactionService.get_transaction db transaction_id).map (·.bank_reference)

theorem find?_map_setTx (l : List Transaction) (txid : Nat) (t1 : Transaction)
    (h1 : t1.id = txid) :
    (l.map (fun u => if u.id == txid then t1 else u)).find? (fun u => u.id == txid)
      = (l.find? (fun u => u.id == txid)).map (fun _ => t1) := by
  induction l with
  | nil => rfl
  | cons a l ih =>
    by_cases ha : a.id = txid
    · simp [ha, h1]
    · rw [List.map_cons, if_neg (by simp [ha] : ¬ (a.id == txid) = true),
        List.find?_cons_of_neg _ (by simp [ha]),
        List.find?_cons_of_neg _ (by simp [ha])]
      exact ih

theorem find?_map_setUser (l : List User) (uid : Nat) (u1 : User)
    (h1 : u1.id = uid) :
    (l.map (fun v => if v.id == uid then u1 else v)).find? (fun v => v.id == uid)
      = (l.find? (fun v => v.id == uid)).map (fun _ => u1) := by
  induction l with
  | nil => rfl
  | cons a l ih =>
    by_cases ha : a.id = uid
    · simp [ha, h1]
    · rw [List.map_cons, if_neg (by simp [ha] : ¬ (a.id == uid) = true),
        List.find?_cons_of_neg _ (by simp [ha]),
        List.find?_cons_of_neg _ (by simp [ha])]
      exact ih

namespace TransactionService

theorem get_transaction_setTx_self (db : DB) (txid : Nat) (t t1 : Transaction)
    (h : get_transaction db txid = some t) (h1 : t1.id = txid) :
    get_transaction (setTx db txid t1) txid = some t1 := by
  unfold get_transaction at h ⊢
  show (db.transactions.map _).find? _ = some t1
  rw [find?_map_setTx _ _ _ h1, h]
  rfl

theorem get_transaction_setUser (db : DB) (uid : Nat) (u1 : User) (txid : Nat) :
    get_transaction (setUser db uid u1) txid = get_transaction db txid := rfl

theorem userBalance_setTx (db : DB) (txid : Nat) (t1 : Transaction) (uid : Nat) :
    userBalance (setTx db txid t1) uid = userBalance db uid := rfl

theorem userBalance_setUser_self (db : DB) (uid : Nat) (u u1 : User)
    (h : db.users.find? (fun v => v.id == uid) = some u) (h1 : u1.id = uid) :
    userBalance (setUser db uid u1) uid = some u1.balance := by
  unfold userBalance setUser
  show ((db.users.map _).find? _).map _ = _
  rw [find?_map_setUser _ _ _ h1, h]
  rfl

theorem update_transaction_status_found (db : DB) (txid : Nat)
    (st : TransactionStatus) (br em : Option String) (t : Transaction)
    (h : get_transaction db txid = some t) :
    update_transaction_status db txid st br em
      = .ok (setTx db txid (applyUpd t st br em), applyUpd t st br em) := by
  unfold update_transaction_status
  unfold get_transaction at h
  rw [h]

theorem update_user_balance_add (db : DB) (uid : Nat) (amt : ℚ) (u : User)
    (h : db.users.find? (fun v => v.id == uid) = some u) :
    update_user_balance db uid amt "add"
      = .ok (setUser db uid { u with balance := u.balance + amt },
             { u with balance := u.balance + amt }) := by
  unfold update_user_balance
  rw [h]
  rfl

theorem update_user_balance_subtract_ok (db : DB) (uid : Nat) (amt : ℚ) (u : User)
    (h : db.users.find? (fun v => v.id == uid) = some u) (h2 : ¬ u.balance < amt) :
    update_user_balance db uid amt "subtract"
      = .ok (setUser db uid { u with balance := u.balance - amt },
             { u with balance := u.balance - amt }) := by
  unfold update_user_balance
  rw [h]
  simp [h2]

theorem update_user_balance_subtract_insufficient (db : DB) (uid : Nat) (amt : ℚ)
    (u : User) (h : db.users.find? (fun v => v.id == uid) = some u)
    (h2 : u.balance < amt) :
    update_user_balance db uid amt "subtract"
      = .error (.insufficientBalance (insufficientBalanceMsg u.balance amt)) := by
  unfold update_user_balance
  rw [h]
  simp [h2]

end TransactionService

theorem applyUpd_id (t : Transaction) (st : TransactionStatus) (br em : Option String) :
    (applyUpd t st br em).id = t.id := rfl

theorem applyUpd_status (t : Transaction) (st : TransactionStatus) (br em : Option String) :
    (applyUpd t st br em).status = st := rfl

theorem applyUpd_bank_reference_none (t : Transaction) (st : TransactionStatus)
    (em : Option String) : (applyUpd t st none em).bank_reference = t.bank_reference := rfl

/-! ### Concrete fixtures used by counterexamples and witnesses -/

/-- A transaction already settled successfully. -/
def txSuccess : Transaction :=
  { id := 1, user_id := 1, type := .deposit, status := .success, amount := 50,
    bank_reference := some "DEP-AAA111BBB222", error_message := none,
    idempotency_key := some "key-1" }

/-- A pending deposit awaiting the worker. -/
def txPendingD : Transaction :=
  { id := 1, user_id := 1, type := .deposit, status := .pending, amount := 50,
    bank_reference := none, error_message := none, idempotency_key := some "key-1" }

/-- A pending withdrawal awaiting the worker. -/
def txPendingW : Transaction :=
  { id := 1, user_id := 1, type := .withdrawal, status := .pending, amount := 30,
    bank_reference := none, error_message := none, idempotency_key := some "key-2" }

/-- Database holding one user and the settled transaction. -/
def dbSuccess : DB :=
  { users := [{ id := 1, balance := 100 }], transactions := [txSuccess],
    idempotency_keys := [], next_tx_id := 2 }

/-- Database holding one user and the pending deposit. -/
def dbPendingD : DB :=
  { users := [{ id := 1, balance := 100 }], transactions := [txPendingD],
    idempotency_keys := [], next_tx_id := 2 }

/-- Database holding one user and the pending withdrawal. -/
def dbPendingW : DB :=
  { users := [{ id := 1, balance := 100 }], transactions := [txPendingW],
    idempotency_keys := [], next_tx_id := 2 }

open TransactionService

/-- The id of a found transaction matches the lookup key. -/
theorem get_transaction_id (db : DB) (txid : Nat) (t : Transaction)
    (h : get_transaction db txid = some t) : t.id = txid := by
  unfold get_transaction at h
  have := List.find?_some h
  simpa using this

/-- Looking up the row again after an `update_transaction_status` write
returns the written row. -/
theorem get_transaction_after_upd (db : DB) (txid : Nat) (t : Transaction)
    (st : TransactionStatus) (br em : Option String)
    (h : get_transaction db txid = some t) :
    get_transaction (setTx db txid (applyUpd t st br em)) txid
      = some (applyUpd t st br em) :=
  get_transaction_setTx_self db txid t _ h
    (by rw [applyUpd_id]; exact get_transaction_id db txid t h)

/-- All three tasks return without writing when the stored transaction is
terminal. -/
theorem tasks_noop_of_terminal (db : DB) (txid : Nat) (t : Transaction)
    (bank : BankOutcome) (ref status_str : String) (em : Option String)
    (ht : get_transaction db txid = some t)
    (hterm : (t.status == TransactionStatus.success
              || t.status == TransactionStatus.failed) = true) :
    process_deposit_task db txid bank = ⟨db, [], none⟩
    ∧ process_withdrawal_task db txid bank = ⟨db, [], none⟩
    ∧ process_webhook_task db txid ref status_str em = ⟨db, [], none⟩ := by
  unfold process_deposit_task process_withdrawal_task process_webhook_task
  rw [ht]
  simp [hterm]

/-! ### C1 -/

/-- C1 counterexample: `update_transaction_status` does not refuse a
transition out of a terminal state.  On a transaction whose stored status
is `success`, calling it with `failed` and an error message overwrites
both fields, contradicting the claim that the call is a no-op that leaves
status and error_message unchanged. -/
theorem C1_counterexample :
    (get_transaction dbSuccess 1).map (·.status) = some .success
    ∧ ((update_transaction_status dbSuccess 1 .failed none (some "late failure")).map
        (fun p => ((get_transaction p.1 1).map (·.status),
                   (get_transaction p.1 1).map (·.error_message))))
      = .ok (some .failed, some (some "late failure")) := by
  exact ⟨rfl, rfl⟩

/-- C1 (amended): the terminal-state no-op guard is implemented in the
callers, not in `update_transaction_status`: when the stored transaction
is already `success` or `failed`, the settlement worker tasks and the
webhook task return without performing any write, so through those
operations a terminal state is never overwritten; `update_transaction_status`
itself, called directly, overwrites the row. -/
theorem C1_terminal_guard_in_callers (db : DB) (txid : Nat) (t : Transaction)
    (bank : BankOutcome) (ref status_str : String) (em : Option String)
    (ht : get_transaction db txid = some t)
    (hterm : t.status = .success ∨ t.status = .failed) :
    process_deposit_task db txid bank = ⟨db, [], none⟩
    ∧ process_withdrawal_task db txid bank = ⟨db, [], none⟩
    ∧ process_webhook_task db txid ref status_str em = ⟨db, [], none⟩ := by
  have hb : (t.status == TransactionStatus.success || t.status == TransactionStatus.failed) = true := by
    rcases hterm with h | h <;> rw [h] <;> rfl
  exact tasks_noop_of_terminal db txid t bank ref status_str em ht hb

/-- Witness for C1: the guard theorem applied to the settled fixture. -/
theorem C1_terminal_guard_in_callers_witness :
    process_deposit_task dbSuccess 1 .timeout = ⟨dbSuccess, [], none⟩
    ∧ process_withdrawal_task dbSuccess 1 .timeout = ⟨dbSuccess, [], none⟩
    ∧ process_webhook_task dbSuccess 1 "REF" "success" none = ⟨dbSuccess, [], none⟩ :=
  C1_terminal_guard_in_callers dbSuccess 1 txSuccess .timeout "REF" "success" none
    rfl (Or.inl rfl)

/-! ### C2 -/

/-- C2 (code bug): on a transient bank error the task sets the row back to
`pending` and re-raises, but the re-raised exception is caught by the
task's own outer `except Exception`, which immediately marks the row
`failed` with an "Internal error: ..." message.  No exception escapes the
task body, so Celery's `autoretry_for` never fires: there is no
re-enqueue, no backoff, and the `max_retries = 5` ceiling (and any
"retries exhausted" message) is unreachable.  Evaluated here at the
failing input: a pending transaction whose first bank call times out. -/
theorem C2_transient_error_swallowed :
    (process_deposit_task dbPendingD 1 .timeout).escaped = none
    ∧ (get_transaction (process_deposit_task dbPendingD 1 .timeout).db 1).map
        (fun t => (t.status, t.error_message))
      = some (.failed, some "Internal error: Bank API request timed out")
    ∧ (process_deposit_task dbPendingD 1 .timeout).events
      = [.statusUpdate 1 .processing none none,
         .statusUpdate 1 .pending none (some "Bank API request timed out"),
         .statusUpdate 1 .failed none (some "Internal error: Bank API request timed out")]
    ∧ (process_withdrawal_task dbPendingW 1 .systemUnavailable).escaped = none
    ∧ (get_transaction (process_withdrawal_task dbPendingW 1 .systemUnavailable).db 1).map
        (fun t => (t.status, t.error_message))
      = some (.failed, some "Internal error: Bank system is temporarily unavailable") := by
  exact ⟨rfl, rfl, rfl, rfl, rfl⟩

/-! ### C4 -/

/-- C4: `update_user_balance` with operation "subtract" raises
`InsufficientBalanceError` exactly when `balance < amount` (producing no
new state, so the stored balance is unchanged), and otherwise decrements
the balance by the amount; with a positive amount, no ledger operation
("add", "subtract", or anything else) can turn a non-negative balance
negative. -/
theorem C4_subtract_guard (db : DB) (uid : Nat) (amount : ℚ) (u : User)
    (hu : db.users.find? (fun v => v.id == uid) = some u) (hpos : 0 < amount) :
    (u.balance < amount →
      update_user_balance db uid amount "subtract"
        = .error (.insufficientBalance (insufficientBalanceMsg u.balance amount)))
    ∧ (¬ u.balance < amount →
      update_user_balance db uid amount "subtract"
        = .ok (setUser db uid { u with balance := u.balance - amount },
               { u with balance := u.balance - amount })
      ∧ 0 ≤ u.balance - amount)
    ∧ (∀ operation : String, ∀ db1 : DB, ∀ u1 : User, 0 ≤ u.balance →
        update_user_balance db uid amount operation = .ok (db1, u1) → 0 ≤ u1.balance) := by
  refine ⟨fun hlt => update_user_balance_subtract_insufficient db uid amount u hu hlt,
    fun hge => ⟨update_user_balance_subtract_ok db uid amount u hu hge, by linarith [not_lt.mp hge]⟩,
    fun operation db1 u1 hb h => ?_⟩
  by_cases hadd : operation = "add"
  · subst hadd
    rw [update_user_balance_add db uid amount u hu] at h
    cases h
    show 0 ≤ u.balance + amount
    linarith
  · by_cases hsub : operation = "subtract"
    · subst hsub
      by_cases hlt : u.balance < amount
      · rw [update_user_balance_subtract_insufficient db uid amount u hu hlt] at h
        cases h
      · rw [update_user_balance_subtract_ok db uid amount u hu hlt] at h
        cases h
        show 0 ≤ u.balance - amount
        linarith [not_lt.mp hlt]
    · have hinv : update_user_balance db uid amount operation
          = .error (.valueError ("Invalid operation: " ++ operation)) := by
        unfold update_user_balance
        rw [hu]
        simp [hadd, hsub]
      rw [hinv] at h
      cases h

/-- Witness for C4: a user with balance 100 cannot subtract 150, can
subtract 30, and stays non-negative. -/
theorem C4_subtract_guard_witness :
    update_user_balance dbPendingD 1 (150 : ℚ) "subtract"
      = .error (.insufficientBalance (insufficientBalanceMsg 100 150))
    ∧ update_user_balance dbPendingD 1 (30 : ℚ) "subtract"
      = .ok (setUser dbPendingD 1 { id := 1, balance := 70 }, { id := 1, balance := 70 }) := by
  constructor
  · exact (C4_subtract_guard dbPendingD 1 150 { id := 1, balance := 100 } rfl
      (by norm_num)).1 (by norm_num)
  · have h := ((C4_subtract_guard dbPendingD 1 30 { id := 1, balance := 100 } rfl
      (by norm_num)).2.1 (by norm_num)).1
    rw [h]
    norm_num

/-- Replay behaviour of the deposit endpoint: a stored record short-circuits. -/
theorem create_deposit_api_cached (db : DB) (uid : Nat) (amount : ℚ) (key : String)
    (stored : IdempotencyKey) (concurrent : Option IdempotencyKey)
    (h : check_idempotency_key db uid key = some stored) :
    create_deposit_api db uid amount key concurrent
      = ⟨db, [], .cached stored.response_status stored.response_body⟩ := by
  unfold create_deposit_api
  rw [h]

/-- Replay behaviour of the withdrawal endpoint: a stored record
short-circuits. -/
theorem create_withdrawal_api_cached (db : DB) (uid : Nat) (amount : ℚ) (key : String)
    (stored : IdempotencyKey) (concurrent : Option IdempotencyKey)
    (h : check_idempotency_key db uid key = some stored) :
    create_withdrawal_api db uid amount key concurrent
      = ⟨db, [], .cached stored.response_status stored.response_body⟩ := by
  unfold create_withdrawal_api
  rw [h]

/-! ### C7 -/

/-- C7: when a stored idempotency record exists for the (user, key) pair,
both intake endpoints return the recorded status code and body verbatim —
for any request amount — and leave the database untouched (no second
transaction, no second idempotency record) with nothing enqueued. -/
theorem C7_replay_returns_cached (db : DB) (uid : Nat) (amount : ℚ) (key : String)
    (stored : IdempotencyKey) (concurrent : Option IdempotencyKey)
    (h : check_idempotency_key db uid key = some stored) :
    create_deposit_api db uid amount key concurrent
      = ⟨db, [], .cached stored.response_status stored.response_body⟩
    ∧ create_withdrawal_api db uid amount key concurrent
      = ⟨db, [], .cached stored.response_status stored.response_body⟩ :=
  ⟨create_deposit_api_cached db uid amount key stored concurrent h,
   create_withdrawal_api_cached db uid amount key stored concurrent h⟩

/-- Database with a cached 202 response for user 1 under "key-1". -/
def dbCached : DB :=
  { users := [{ id := 1, balance := 100 }], transactions := [txPendingD],
    idempotency_keys := [{ user_id := 1, key := "key-1", response_status := 202,
                           response_body := .txResponse txPendingD }],
    next_tx_id := 2 }

/-- Witness for C7: replaying "key-1" with a different amount returns the
cached 202 body and changes nothing. -/
theorem C7_replay_returns_cached_witness :
    create_deposit_api dbCached 1 999 "key-1" none
      = ⟨dbCached, [], .cached 202 (.txResponse txPendingD)⟩
    ∧ create_withdrawal_api dbCached 1 999 "key-1" none
      = ⟨dbCached, [], .cached 202 (.txResponse txPendingD)⟩ :=
  C7_replay_returns_cached dbCached 1 999 "key-1"
    { user_id := 1, key := "key-1", response_status := 202,
      response_body := .txResponse txPendingD } none rfl

/-! ### C6 -/

/--` `Record a concurrent duplicate request would have committed. -/
def concurrentRec : IdempotencyKey :=
  { user_id := 1, key := "key-6", response_status := 202,
    response_body := .text "first responder" }

/-- Database for the C6 race: user exists, no idempotency record yet. -/
def dbRace : DB :=
  { users := [{ id := 1, balance := 0 }], transactions := [],
    idempotency_keys := [], next_tx_id := 1 }

/-- C6 counterexample: when a concurrent duplicate commits the idempotency
record between the endpoint's check and its save, the save's
unique-constraint violation is caught by the generic `except Exception`
handler and surfaced as a 500 — even though the cached response is
present in the store at that moment, it is not re-fetched and returned. -/
theorem C6_counterexample :
    (create_deposit_api dbRace 1 50 "key-6" (some concurrentRec)).result
      = .httpError 500 (.text "Failed to create deposit transaction")
    ∧ check_idempotency_key ((create_deposit_api dbRace 1 50 "key-6" (some concurrentRec)).db)
        1 "key-6" = some concurrentRec := by
  exact ⟨rfl, rfl⟩

/-- C6 (amended): on a unique-constraint violation at save time the deposit
intake does not re-fetch the now-present cached response; the exception is
caught by the endpoint's generic handler, a 500 "Failed to create deposit
transaction" error is returned, and the locally created transaction
remains in the store alongside the concurrent request's record. -/
theorem C6_amended_save_conflict_returns_500 (db : DB) (uid : Nat) (amount : ℚ)
    (key : String) (k : IdempotencyKey)
    (hchk : check_idempotency_key db uid key = none)
    (hk1 : k.user_id = uid) (hk2 : k.key = key) :
    (create_deposit_api db uid amount key (some k)).result
      = .httpError 500 (.text "Failed to create deposit transaction")
    ∧ (create_deposit_api db uid amount key (some k)).db.idempotency_keys
      = db.idempotency_keys ++ [k]
    ∧ (create_deposit_api db uid amount key (some k)).db.transactions
      = db.transactions ++
        [{ id := db.next_tx_id, user_id := uid, type := .deposit, status := .pending,
           amount := amount, bank_reference := none, error_message := none,
           idempotency_key := some key }] := by
  have hany : ((db.idempotency_keys ++ [k]).any
      (fun x => x.user_id == uid && x.key == key)) = true := by
    rw [List.any_append]
    simp [hk1, hk2]
  unfold create_deposit_api save_idempotency_key create_deposit
  rw [hchk]
  simp only [hany]
  exact ⟨rfl, rfl, rfl⟩

/-- Witness for C6 (amended): the race fixture again, via the theorem. -/
theorem C6_amended_save_conflict_returns_500_witness :
    (create_deposit_api dbRace 1 50 "key-6" (some concurrentRec)).result
      = .httpError 500 (.text "Failed to create deposit transaction")
    ∧ (create_deposit_api dbRace 1 50 "key-6" (some concurrentRec)).db.idempotency_keys
      = [concurrentRec] :=
  ⟨(C6_amended_save_conflict_returns_500 dbRace 1 50 "key-6" concurrentRec rfl rfl rfl).1,
   (C6_amended_save_conflict_returns_500 dbRace 1 50 "key-6" concurrentRec rfl rfl rfl).2.1⟩

/-! ### C8 -/

/-- C8: a withdrawal intake whose amount exceeds the user's balance raises
`InsufficientBalanceError` before any transaction row is created: the
endpoint returns a 400 with the insufficient-balance body, enqueues
nothing, leaves transactions and balances untouched, stores that 400
response under the idempotency key, and a replay of the same (user, key)
pair — even with a different amount — returns the cached 400 response. -/
theorem C8_insufficient_withdrawal_rejected (db : DB) (uid : Nat)
    (amount amount2 : ℚ) (key : String) (u : User)
    (hu : db.users.find? (fun v => v.id == uid) = some u)
    (hlt : u.balance < amount)
    (hchk : check_idempotency_key db uid key = none) :
    (create_withdrawal_api db uid amount key none).result
      = .httpError 400 (.insufficientBalance (insufficientBalanceMsg u.balance amount))
    ∧ (create_withdrawal_api db uid amount key none).queued = []
    ∧ (create_withdrawal_api db uid amount key none).db.transactions = db.transactions
    ∧ (create_withdrawal_api db uid amount key none).db.users = db.users
    ∧ (create_withdrawal_api db uid amount key none).db.idempotency_keys
      = db.idempotency_keys ++
        [{ user_id := uid, key := key, response_status := 400,
           response_body := .insufficientBalance (insufficientBalanceMsg u.balance amount) }]
    ∧ create_withdrawal_api (create_withdrawal_api db uid amount key none).db uid amount2 key none
      = ⟨(create_withdrawal_api db uid amount key none).db, [],
         .cached 400 (.insufficientBalance (insufficientBalanceMsg u.balance amount))⟩ := by
  have hwd : create_withdrawal db uid amount key
      = .error (.insufficientBalance (insufficientBalanceMsg u.balance amount)) := by
    unfold create_withdrawal
    rw [hu]
    simp [hlt]
  have hanyf : (db.idempotency_keys.any
      (fun x => x.user_id == uid && x.key == key)) = false :=
    List.any_eq_false.mpr (List.find?_eq_none.mp hchk)
  have hrun : create_withdrawal_api db uid amount key none
      = ⟨{ db with idempotency_keys := db.idempotency_keys ++
            [{ user_id := uid, key := key, response_status := 400,
               response_body := .insufficientBalance (insufficientBalanceMsg u.balance amount) }] },
         [], .httpError 400 (.insufficientBalance (insufficientBalanceMsg u.balance amount))⟩ := by
    unfold create_withdrawal_api save_idempotency_key
    rw [hchk]
    simp only [hwd, hanyf]
    rfl
  have hfind2 : check_idempotency_key (create_withdrawal_api db uid amount key none).db uid key
      = some { user_id := uid, key := key, response_status := 400,
               response_body := .insufficientBalance (insufficientBalanceMsg u.balance amount) } := by
    rw [hrun]
    unfold check_idempotency_key
    show List.find? _ (db.idempotency_keys ++ [_]) = _
    rw [List.find?_append, List.find?_eq_none.mpr (List.find?_eq_none.mp hchk)]
    simp
  exact ⟨by rw [hrun], by rw [hrun], by rw [hrun], by rw [hrun], by rw [hrun],
    create_withdrawal_api_cached _ uid amount2 key _ none hfind2⟩

/-- Database for the C8 witness: user 1 has balance 100. -/
def dbPoor : DB :=
  { users := [{ id := 1, balance := 100 }], transactions := [],
    idempotency_keys := [], next_tx_id := 1 }

/-- Witness for C8: withdrawing 250 from a balance of 100 yields the 400
outcome and the replay returns it from cache. -/
theorem C8_insufficient_withdrawal_rejected_witness :
    (create_withdrawal_api dbPoor 1 250 "key-8" none).result
      = .httpError 400 (.insufficientBalance (insufficientBalanceMsg 100 250))
    ∧ create_withdrawal_api (create_withdrawal_api dbPoor 1 250 "key-8" none).db 1 77 "key-8" none
      = ⟨(create_withdrawal_api dbPoor 1 250 "key-8" none).db, [],
         .cached 400 (.insufficientBalance (insufficientBalanceMsg 100 250))⟩ :=
  ⟨(C8_insufficient_withdrawal_rejected dbPoor 1 250 77 "key-8" { id := 1, balance := 100 }
      rfl (by norm_num) rfl).1,
   (C8_insufficient_withdrawal_rejected dbPoor 1 250 77 "key-8" { id := 1, balance := 100 }
      rfl (by norm_num) rfl).2.2.2.2.2⟩

/-! ### C9 -/

/-- A Bool disequality from terminal: convert `¬ … = true` to `… = false`. -/
theorem bool_not_true {b : Bool} (h : ¬ b = true) : b = false := by
  cases b
  · rfl
  · exact absurd rfl h

/-- After any non-success bank outcome, the deposit worker leaves the
stored bank reference unchanged: every status write on those paths passes
`bank_reference = None`. -/
theorem deposit_task_keeps_bank_ref (db : DB) (txid : Nat) (bank : BankOutcome)
    (hb : ∀ ref, bank ≠ .success ref) :
    txBankRef ((process_deposit_task db txid bank).db) txid = txBankRef db txid := by
  cases hft : get_transaction db txid with
  | none =>
    unfold process_deposit_task
    rw [hft]
  | some t =>
    by_cases hterm : (t.status == TransactionStatus.success
        || t.status == TransactionStatus.failed) = true
    · rw [(tasks_noop_of_terminal db txid t bank "" "" none hft hterm).1]
    · have hterm' := bool_not_true hterm
      have h0 := update_transaction_status_found db txid .processing none none t hft
      have h1 := get_transaction_after_upd db txid t .processing none none hft
      cases bank with
      | success ref => exact absurd rfl (hb ref)
      | timeout =>
        have h2 := update_transaction_status_found _ txid .pending none
          (some (BankOutcome.timeout.exc.message)) _ h1
        have h3 := get_transaction_after_upd _ txid _ .pending none
          (some (BankOutcome.timeout.exc.message)) h1
        have h4 := update_transaction_status_found _ txid .failed none
          (some ("Internal error: " ++ BankOutcome.timeout.exc.message)) _ h3
        have h5 := get_transaction_after_upd _ txid _ .failed none
          (some ("Internal error: " ++ BankOutcome.timeout.exc.message)) h3
        unfold txBankRef process_deposit_task outerHandler
        rw [hft]
        simp only [hterm', Bool.false_eq_true, if_false, h0, h2, h4]
        rw [h5]
        rfl
      | systemUnavailable =>
        have h2 := update_transaction_status_found _ txid .pending none
          (some (BankOutcome.systemUnavailable.exc.message)) _ h1
        have h3 := get_transaction_after_upd _ txid _ .pending none
          (some (BankOutcome.systemUnavailable.exc.message)) h1
        have h4 := update_transaction_status_found _ txid .failed none
          (some ("Internal error: " ++ BankOutcome.systemUnavailable.exc.message)) _ h3
        have h5 := get_transaction_after_upd _ txid _ .failed none
          (some ("Internal error: " ++ BankOutcome.systemUnavailable.exc.message)) h3
        unfold txBankRef process_deposit_task outerHandler
        rw [hft]
        simp only [hterm', Bool.false_eq_true, if_false, h0, h2, h4]
        rw [h5]
        rfl
      | insufficientFunds =>
        have h2 := update_transaction_status_found _ txid .failed none
          (some (BankOutcome.insufficientFunds.exc.message)) _ h1
        have h3 := get_transaction_after_upd _ txid _ .failed none
          (some (BankOutcome.insufficientFunds.exc.message)) h1
        unfold txBankRef process_deposit_task
        rw [hft]
        simp only [hterm', Bool.false_eq_true, if_false, h0, h2]
        rw [h3]
        rfl
      | invalidRequest =>
        have h2 := update_transaction_status_found _ txid .failed none
          (some (BankOutcome.invalidRequest.exc.message)) _ h1
        have h3 := get_transaction_after_upd _ txid _ .failed none
          (some (BankOutcome.invalidRequest.exc.message)) h1
        unfold txBankRef process_deposit_task
        rw [hft]
        simp only [hterm', Bool.false_eq_true, if_false, h0, h2]
        rw [h3]
        rfl

/-- Withdrawal-task analogue of `deposit_task_keeps_bank_ref`. -/
theorem withdrawal_task_keeps_bank_ref (db : DB) (txid : Nat) (bank : BankOutcome)
    (hb : ∀ ref, bank ≠ .success ref) :
    txBankRef ((process_withdrawal_task db txid bank).db) txid = txBankRef db txid := by
  cases hft : get_transaction db txid with
  | none =>
    unfold process_withdrawal_task
    rw [hft]
  | some t =>
    by_cases hterm : (t.status == TransactionStatus.success
        || t.status == TransactionStatus.failed) = true
    · rw [(tasks_noop_of_terminal db txid t bank "" "" none hft hterm).2.1]
    · have hterm' := bool_not_true hterm
      have h0 := update_transaction_status_found db txid .processing none none t hft
      have h1 := get_transaction_after_upd db txid t .processing none none hft
      cases bank with
      | success ref => exact absurd rfl (hb ref)
      | timeout =>
        have h2 := update_transaction_status_found _ txid .pending none
          (some (BankOutcome.timeout.exc.message)) _ h1
        have h3 := get_transaction_after_upd _ txid _ .pending none
          (some (BankOutcome.timeout.exc.message)) h1
        have h4 := update_transaction_status_found _ txid .failed none
          (some ("Internal error: " ++ BankOutcome.timeout.exc.message)) _ h3
        have h5 := get_transaction_after_upd _ txid _ .failed none
          (some ("Internal error: " ++ BankOutcome.timeout.exc.message)) h3
        unfold txBankRef process_withdrawal_task outerHandler
        rw [hft]
        simp only [hterm', Bool.false_eq_true, if_false, h0, h2, h4]
        rw [h5]
        rfl
      | systemUnavailable =>
        have h2 := update_transaction_status_found _ txid .pending none
          (some (BankOutcome.systemUnavailable.exc.message)) _ h1
        have h3 := get_transaction_after_upd _ txid _ .pending none
          (some (BankOutcome.systemUnavailable.exc.message)) h1
        have h4 := update_transaction_status_found _ txid .failed none
          (some ("Internal error: " ++ BankOutcome.systemUnavailable.exc.message)) _ h3
        have h5 := get_transaction_after_upd _ txid _ .failed none
          (some ("Internal error: " ++ BankOutcome.systemUnavailable.exc.message)) h3
        unfold txBankRef process_withdrawal_task outerHandler
        rw [hft]
        simp only [hterm', Bool.false_eq_true, if_false, h0, h2, h4]
        rw [h5]
        rfl
      | insufficientFunds =>
        have h2 := update_transaction_status_found _ txid .failed none
          (some (BankOutcome.insufficientFunds.exc.message)) _ h1
        have h3 := get_transaction_after_upd _ txid _ .failed none
          (some (BankOutcome.insufficientFunds.exc.message)) h1
        unfold txBankRef process_withdrawal_task
        rw [hft]
        simp only [hterm', Bool.false_eq_true, if_false, h0, h2]
        rw [h3]
        rfl
      | invalidRequest =>
        have h2 := update_transaction_status_found _ txid .failed none
          (some (BankOutcome.invalidRequest.exc.message)) _ h1
        have h3 := get_transaction_after_upd _ txid _ .failed none
          (some (BankOutcome.invalidRequest.exc.message)) h1
        unfold txBankRef process_withdrawal_task
        rw [hft]
        simp only [hterm', Bool.false_eq_true, if_false, h0, h2]
        rw [h3]
        rfl

/-- The webhook reconciler writes the payload's (nonempty) bank reference
even when the reported status is "failed". -/
theorem webhook_failed_sets_bank_ref (db : DB) (txid : Nat) (ref : String)
    (em : Option String) (t : Transaction)
    (hft : get_transaction db txid = some t)
    (hterm : (t.status == TransactionStatus.success
              || t.status == TransactionStatus.failed) = false)
    (href : optTruthy (some ref) = true) :
    (get_transaction ((process_webhook_task db txid ref "failed" em).db) txid).map
      (fun x => (x.status, x.bank_reference)) = some (.failed, some ref) := by
  have h2 := update_transaction_status_found db txid .failed (some ref) em t hft
  have h3 := get_transaction_after_upd db txid t .failed (some ref) em hft
  unfold process_webhook_task
  rw [hft]
  simp only [hterm, Bool.false_eq_true, if_false]
  simp only [show (("failed" == "success") = true) = False by simp, if_false]
  simp only [h2]
  rw [h3]
  simp [applyUpd, href]

/-- C9 counterexample: a "failed" webhook for a pending withdrawal writes
the payload's bank reference onto the transaction, which ends `failed`
with `bank_reference` set — the claim says no operation ever sets a bank
reference on a transaction that ends failed. -/
theorem C9_counterexample :
    (get_transaction (process_webhook_task dbPendingW 1 "BANK-REF-9" "failed"
        (some "card declined")).db 1).map (fun t => (t.status, t.bank_reference))
      = some (.failed, some "BANK-REF-9")
    ∧ (process_webhook_task dbPendingW 1 "BANK-REF-9" "failed"
        (some "card declined")).escaped = none := by
  exact ⟨rfl, rfl⟩

/-- C9 (amended): the settlement worker writes a bank reference only on its
success path — on every non-success bank outcome both worker tasks leave
the stored bank reference unchanged — but the webhook reconciler passes
the payload's bank reference for both outcomes, so a non-terminal
transaction completed as "failed" by webhook ends failed with its bank
reference set. -/
theorem C9_amended_bank_reference :
    (∀ (db : DB) (txid : Nat) (bank : BankOutcome), (∀ ref, bank ≠ .success ref) →
      txBankRef ((process_deposit_task db txid bank).db) txid = txBankRef db txid
      ∧ txBankRef ((process_withdrawal_task db txid bank).db) txid = txBankRef db txid)
    ∧ (∀ (db : DB) (txid : Nat) (ref : String) (em : Option String) (t : Transaction),
        get_transaction db txid = some t →
        (t.status == TransactionStatus.success
          || t.status == TransactionStatus.failed) = false →
        optTruthy (some ref) = true →
        (get_transaction ((process_webhook_task db txid ref "failed" em).db) txid).map
          (fun x => (x.status, x.bank_reference)) = some (.failed, some ref)) :=
  ⟨fun db txid bank hb =>
    ⟨deposit_task_keeps_bank_ref db txid bank hb,
     withdrawal_task_keeps_bank_ref db txid bank hb⟩,
   fun db txid ref em t hft hterm href =>
    webhook_failed_sets_bank_ref db txid ref em t hft hterm href⟩

/-- Witness for C9 (amended): a timed-out deposit keeps its (absent) bank
reference, and the failed webhook on the pending withdrawal sets one. -/
theorem C9_amended_bank_reference_witness :
    txBankRef ((process_deposit_task dbPendingD 1 .timeout).db) 1 = txBankRef dbPendingD 1
    ∧ (get_transaction ((process_webhook_task dbPendingW 1 "BANK-REF-9" "failed" none).db) 1).map
        (fun x => (x.status, x.bank_reference)) = some (.failed, some "BANK-REF-9") :=
  ⟨(C9_amended_bank_reference.1 dbPendingD 1 .timeout (fun ref h => by cases h)).1,
   C9_amended_bank_reference.2 dbPendingW 1 "BANK-REF-9" none txPendingW rfl rfl rfl⟩

/-! ### C3 -/

/-- The id of a found user matches the lookup key. -/
theorem find?_user_id (l : List User) (uid : Nat) (u : User)
    (h : l.find? (fun v => v.id == uid) = some u) : u.id = uid := by
  have := List.find?_some h
  simpa using this

/-- Full observable run of the withdrawal worker on a successful bank call
with sufficient balance: the debit strictly precedes the success mark. -/
theorem withdrawal_success_run (db : DB) (txid : Nat) (ref : String)
    (t : Transaction) (u : User)
    (hft : get_transaction db txid = some t)
    (hterm : (t.status == TransactionStatus.success
              || t.status == TransactionStatus.failed) = false)
    (hu : db.users.find? (fun v => v.id == t.user_id) = some u)
    (hge : ¬ u.balance < t.amount) :
    (process_withdrawal_task db txid (.success ref)).events
      = [.statusUpdate txid .processing none none,
         .balanceUpdate t.user_id "subtract" t.amount,
         .statusUpdate txid .success (some ref) none]
    ∧ (get_transaction (process_withdrawal_task db txid (.success ref)).db txid).map (·.status)
      = some .success
    ∧ userBalance (process_withdrawal_task db txid (.success ref)).db t.user_id
      = some (u.balance - t.amount)
    ∧ (process_withdrawal_task db txid (.success ref)).escaped = none := by
  have huid : u.id = t.user_id := find?_user_id db.users t.user_id u hu
  have h0 := update_transaction_status_found db txid .processing none none t hft
  have h1 := get_transaction_after_upd db txid t .processing none none hft
  have hu1 : (setTx db txid (applyUpd t .processing none none)).users.find?
      (fun v => v.id == t.user_id) = some u := hu
  have hsub := update_user_balance_subtract_ok _ t.user_id t.amount u hu1 hge
  have h1' : get_transaction (setUser (setTx db txid (applyUpd t .processing none none))
      t.user_id { u with balance := u.balance - t.amount }) txid
      = some (applyUpd t .processing none none) := h1
  have h2 := update_transaction_status_found _ txid .success (some ref) none _ h1'
  have h3 := get_transaction_after_upd _ txid _ .success (some ref) none h1'
  unfold process_withdrawal_task
  rw [hft]
  simp only [hterm, Bool.false_eq_true, if_false, h0, hsub, h2]
  refine ⟨by trivial, ?_, ?_, by trivial⟩
  · rw [h3]
    rfl
  · rw [userBalance_setTx]
    rw [userBalance_setUser_self _ t.user_id u
      { u with balance := u.balance - t.amount } hu1 huid]

/-- Full observable run of the withdrawal worker when the bank call
succeeds but the debit fails for insufficient balance: the transaction is
marked failed by the outer handler, not left processing. -/
theorem withdrawal_latefail_run (db : DB) (txid : Nat) (ref : String)
    (t : Transaction) (u : User)
    (hft : get_transaction db txid = some t)
    (hterm : (t.status == TransactionStatus.success
              || t.status == TransactionStatus.failed) = false)
    (hu : db.users.find? (fun v => v.id == t.user_id) = some u)
    (hlt : u.balance < t.amount) :
    (process_withdrawal_task db txid (.success ref)).events
      = [.statusUpdate txid .processing none none,
         .statusUpdate txid .failed none
           (some ("Internal error: " ++ insufficientBalanceMsg u.balance t.amount))]
    ∧ (get_transaction (process_withdrawal_task db txid (.success ref)).db txid).map
        (fun x => (x.status, x.error_message))
      = some (.failed, some ("Internal error: " ++ insufficientBalanceMsg u.balance t.amount))
    ∧ userBalance (process_withdrawal_task db txid (.success ref)).db t.user_id
      = some u.balance
    ∧ (process_withdrawal_task db txid (.success ref)).escaped = none := by
  have huid : u.id = t.user_id := find?_user_id db.users t.user_id u hu
  have h0 := update_transaction_status_found db txid .processing none none t hft
  have h1 := get_transaction_after_upd db txid t .processing none none hft
  have hu1 : (setTx db txid (applyUpd t .processing none none)).users.find?
      (fun v => v.id == t.user_id) = some u := hu
  have hsub := update_user_balance_subtract_insufficient _ t.user_id t.amount u hu1 hlt
  have h2 := update_transaction_status_found _ txid .failed none
    (some ("Internal error: " ++ (Exc.insufficientBalance
      (insufficientBalanceMsg u.balance t.amount)).message)) _ h1
  have h3 := get_transaction_after_upd _ txid _ .failed none
    (some ("Internal error: " ++ (Exc.insufficientBalance
      (insufficientBalanceMsg u.balance t.amount)).message)) h1
  unfold process_withdrawal_task outerHandler
  rw [hft]
  simp only [hterm, Bool.false_eq_true, if_false, h0, hsub, h2]
  refine ⟨by trivial, ?_, ?_, by trivial⟩
  · rw [h3]
    rfl
  · rw [userBalance_setTx, userBalance_setTx]
    unfold userBalance
    rw [hu]
    rfl

/-- Full observable run of the deposit worker on a successful bank call:
the success mark strictly precedes the ledger credit. -/
theorem deposit_success_run (db : DB) (txid : Nat) (ref : String)
    (t : Transaction) (u : User)
    (hft : get_transaction db txid = some t)
    (hterm : (t.status == TransactionStatus.success
              || t.status == TransactionStatus.failed) = false)
    (hu : db.users.find? (fun v => v.id == t.user_id) = some u) :
    (process_deposit_task db txid (.success ref)).events
      = [.statusUpdate txid .processing none none,
         .statusUpdate txid .success (some ref) none,
         .balanceUpdate t.user_id "add" t.amount]
    ∧ (get_transaction (process_deposit_task db txid (.success ref)).db txid).map (·.status)
      = some .success
    ∧ userBalance (process_deposit_task db txid (.success ref)).db t.user_id
      = some (u.balance + t.amount)
    ∧ (process_deposit_task db txid (.success ref)).escaped = none := by
  have huid : u.id = t.user_id := find?_user_id db.users t.user_id u hu
  have h0 := update_transaction_status_found db txid .processing none none t hft
  have h1 := get_transaction_after_upd db txid t .processing none none hft
  have h2 := update_transaction_status_found _ txid .success (some ref) none _ h1
  have h3 := get_transaction_after_upd _ txid _ .success (some ref) none h1
  have hu2 : (setTx (setTx db txid (applyUpd t .processing none none)) txid
      (applyUpd (applyUpd t .processing none none) .success (some ref) none)).users.find?
      (fun v => v.id == t.user_id) = some u := hu
  have hadd := update_user_balance_add _ t.user_id t.amount u hu2
  unfold process_deposit_task
  rw [hft]
  simp only [hterm, Bool.false_eq_true, if_false, h0, h2, hadd]
  refine ⟨by trivial, ?_, ?_, by trivial⟩
  · rw [get_transaction_setUser, h3]
    rfl
  · rw [userBalance_setUser_self _ t.user_id u
      { u with balance := u.balance + t.amount } hu2 huid]

/-- C3 counterexample: in a concrete deposit settlement with a successful
bank call, the worker marks the transaction `success` (trace index 1)
before applying the ledger credit (trace index 2) — the claim requires
the ledger mutation to come first. -/
theorem C3_counterexample :
    (process_deposit_task dbPendingD 1 (.success "DEP-ABC123DEF456")).events
      = [.statusUpdate 1 .processing none none,
         .statusUpdate 1 .success (some "DEP-ABC123DEF456") none,
         .balanceUpdate 1 "add" 50]
    ∧ (process_deposit_task dbPendingD 1 (.success "DEP-ABC123DEF456")).events.findIdx
        (fun e => match e with | .statusUpdate _ .success _ _ => true | _ => false) = 1
    ∧ (process_deposit_task dbPendingD 1 (.success "DEP-ABC123DEF456")).events.findIdx
        (fun e => match e with | .balanceUpdate _ _ _ => true | _ => false) = 2 := by
  exact ⟨rfl, rfl, rfl⟩

/-- C3 (amended): for withdrawals the ledger debit precedes the success
mark, and a debit that fails (insufficient balance discovered late) ends
with the transaction marked `failed` (message prefixed "Internal error:"),
never left `processing`; for deposits, however, the worker marks the
transaction `success` first and credits the ledger afterwards. -/
theorem C3_amended_settlement_order (db : DB) (txid : Nat) (ref : String)
    (t : Transaction) (u : User)
    (hft : get_transaction db txid = some t)
    (hterm : (t.status == TransactionStatus.success
              || t.status == TransactionStatus.failed) = false)
    (hu : db.users.find? (fun v => v.id == t.user_id) = some u) :
    (¬ u.balance < t.amount →
      (process_withdrawal_task db txid (.success ref)).events
        = [.statusUpdate txid .processing none none,
           .balanceUpdate t.user_id "subtract" t.amount,
           .statusUpdate txid .success (some ref) none]
      ∧ (get_transaction (process_withdrawal_task db txid (.success ref)).db txid).map (·.status)
        = some .success)
    ∧ (u.balance < t.amount →
      (get_transaction (process_withdrawal_task db txid (.success ref)).db txid).map
          (fun x => (x.status, x.error_message))
        = some (.failed, some ("Internal error: " ++ insufficientBalanceMsg u.balance t.amount))
      ∧ userBalance (process_withdrawal_task db txid (.success ref)).db t.user_id
        = some u.balance)
    ∧ ((process_deposit_task db txid (.success ref)).events
        = [.statusUpdate txid .processing none none,
           .statusUpdate txid .success (some ref) none,
           .balanceUpdate t.user_id "add" t.amount]) :=
  ⟨fun hge =>
    ⟨(withdrawal_success_run db txid ref t u hft hterm hu hge).1,
     (withdrawal_success_run db txid ref t u hft hterm hu hge).2.1⟩,
   fun hlt =>
    ⟨(withdrawal_latefail_run db txid ref t u hft hterm hu hlt).2.1,
     (withdrawal_latefail_run db txid ref t u hft hterm hu hlt).2.2.1⟩,
   (deposit_success_run db txid ref t u hft hterm hu).1⟩

/-- Witness for C3 (amended): concrete runs on the pending fixtures. -/
theorem C3_amended_settlement_order_witness :
    (process_withdrawal_task dbPendingW 1 (.success "WTH-1A2B3C4D5E6F")).events
      = [.statusUpdate 1 .processing none none,
         .balanceUpdate 1 "subtract" 30,
         .statusUpdate 1 .success (some "WTH-1A2B3C4D5E6F") none]
    ∧ (process_deposit_task dbPendingD 1 (.success "DEP-1A2B3C4D5E6F")).events
      = [.statusUpdate 1 .processing none none,
         .statusUpdate 1 .success (some "DEP-1A2B3C4D5E6F") none,
         .balanceUpdate 1 "add" 50] :=
  ⟨((C3_amended_settlement_order dbPendingW 1 "WTH-1A2B3C4D5E6F" txPendingW
      { id := 1, balance := 100 } rfl rfl rfl).1 (by norm_num [txPendingW])).1,
   (C3_amended_settlement_order dbPendingD 1 "DEP-1A2B3C4D5E6F" txPendingD
      { id := 1, balance := 100 } rfl rfl rfl).2.2⟩

/-! ### C5 -/

/-- C5: delivering the same success webhook twice applies the ledger
mutation exactly once.  Under the conditions in which the first delivery
completes (transaction present and non-terminal, user present, and for a
withdrawal a sufficient balance), the first run performs exactly one
balance mutation and marks the transaction terminal, and the second run
is a no-op: it returns the database unchanged, performs no event, and
raises nothing. -/
theorem C5_webhook_idempotent (db : DB) (txid : Nat) (ref : String)
    (em : Option String) (t : Transaction) (u : User)
    (hft : get_transaction db txid = some t)
    (hterm : (t.status == TransactionStatus.success
              || t.status == TransactionStatus.failed) = false)
    (hu : db.users.find? (fun v => v.id == t.user_id) = some u)
    (hbal : t.type = .withdrawal → ¬ u.balance < t.amount) :
    (process_webhook_task db txid ref "success" em).escaped = none
    ∧ (process_webhook_task db txid ref "success" em).events.countP
        (fun e => match e with | .balanceUpdate _ _ _ => true | _ => false) = 1
    ∧ process_webhook_task (process_webhook_task db txid ref "success" em).db
        txid ref "success" em
      = ⟨(process_webhook_task db txid ref "success" em).db, [], none⟩ := by
  cases hty : t.type with
  | deposit =>
    have hadd := update_user_balance_add db t.user_id t.amount u hu
    have hft1 : get_transaction (setUser db t.user_id
        { u with balance := u.balance + t.amount }) txid = some t := hft
    have h2 := update_transaction_status_found (setUser db t.user_id
      { u with balance := u.balance + t.amount }) txid .success (some ref) em t hft1
    have h3 := get_transaction_after_upd (setUser db t.user_id
      { u with balance := u.balance + t.amount }) txid t .success (some ref) em hft1
    have hrun : process_webhook_task db txid ref "success" em
        = ⟨setTx (setUser db t.user_id { u with balance := u.balance + t.amount }) txid
             (applyUpd t .success (some ref) em),
           [.balanceUpdate t.user_id "add" t.amount,
            .statusUpdate txid .success (some ref) em], none⟩ := by
      unfold process_webhook_task
      rw [hft]
      simp [hterm, hty, hadd, h2,
        show (TransactionType.deposit == TransactionType.deposit) = true from rfl]
    rw [hrun]
    exact ⟨rfl, rfl,
      (tasks_noop_of_terminal _ txid _ .timeout ref "success" em h3 rfl).2.2⟩
  | withdrawal =>
    have hsub := update_user_balance_subtract_ok db t.user_id t.amount u hu (hbal hty)
    have hft1 : get_transaction (setUser db t.user_id
        { u with balance := u.balance - t.amount }) txid = some t := hft
    have h2 := update_transaction_status_found (setUser db t.user_id
      { u with balance := u.balance - t.amount }) txid .success (some ref) em t hft1
    have h3 := get_transaction_after_upd (setUser db t.user_id
      { u with balance := u.balance - t.amount }) txid t .success (some ref) em hft1
    have hrun : process_webhook_task db txid ref "success" em
        = ⟨setTx (setUser db t.user_id { u with balance := u.balance - t.amount }) txid
             (applyUpd t .success (some ref) em),
           [.balanceUpdate t.user_id "subtract" t.amount,
            .statusUpdate txid .success (some ref) em], none⟩ := by
      unfold process_webhook_task
      rw [hft]
      simp [hterm, hty, hsub, h2,
        show (TransactionType.withdrawal == TransactionType.deposit) = false from rfl]
    rw [hrun]
    exact ⟨rfl, rfl,
      (tasks_noop_of_terminal _ txid _ .timeout ref "success" em h3 rfl).2.2⟩

/-- Witness for C5: the pending deposit fixture settled by webhook twice. -/
theorem C5_webhook_idempotent_witness :
    (process_webhook_task dbPendingD 1 "DEP-REF" "success" none).escaped = none
    ∧ (process_webhook_task dbPendingD 1 "DEP-REF" "success" none).events.countP
        (fun e => match e with | .balanceUpdate _ _ _ => true | _ => false) = 1
    ∧ process_webhook_task (process_webhook_task dbPendingD 1 "DEP-REF" "success" none).db
        1 "DEP-REF" "success" none
      = ⟨(process_webhook_task dbPendingD 1 "DEP-REF" "success" none).db, [], none⟩ :=
  C5_webhook_idempotent dbPendingD 1 "DEP-REF" none txPendingD { id := 1, balance := 100 }
    rfl rfl rfl (fun h => by cases h)

/-! ### C10 -/

namespace RateLimiter

/-- One call of the limiter when every stored timestamp is non-negative,
still inside the window of `t`, and strictly below `t`: nothing is
evicted and `t` is appended. -/
theorem check_rate_limit_step (w0 : List ℚ) (limit : Nat) (W t : ℚ)
    (hwin : ∀ x ∈ w0, t - W < x)
    (hlt : ∀ x ∈ w0, x < t) :
    check_rate_limit w0 limit W t
      = ({ is_allowed := decide (w0.length < limit)
           remaining := limit - w0.length - 1
           reset_timestamp := pyInt (t + W)
           retry_after := if limit ≤ w0.length then W else 0 },
         w0 ++ [t]) := by
  have hkeep : evictedWindow w0 W t = w0 := by
    apply List.filter_eq_self.mpr
    intro a ha
    have h2 : t - W < a := hwin a ha
    simp only [decide_eq_true_iff]
    intro hcon
    linarith [hcon.2]
  have hnotmem : t ∉ w0 := fun hmem => lt_irrefl t (hlt t hmem)
  unfold check_rate_limit
  rw [hkeep]
  simp [hnotmem]

/-- Folding the limiter over strictly increasing request times that all lie
inside one window: starting from a window `w0` with the same properties,
the i-th call is admitted iff `w0.length + i < limit`, its retry_after is
`W` exactly when denied, and the final window is `w0 ++ times`. -/
theorem rlRun_all_within (limit : Nat) (W : ℚ) (times : List ℚ) (w0 : List ℚ)
    (hp : (w0 ++ times).Pairwise (· < ·))
    (hwin : ∀ x ∈ w0 ++ times, ∀ y ∈ times, y - W < x) :
    (rlRun limit W w0 times).1
      = (List.range times.length).map
          (fun i => (decide (w0.length + i < limit),
                     if limit ≤ w0.length + i then W else (0 : ℚ)))
    ∧ (rlRun limit W w0 times).2 = w0 ++ times := by
  induction times generalizing w0 with
  | nil => simp [rlRun]
  | cons t ts ih =>
    have hcross := (List.pairwise_append.mp hp).2.2
    have hstep := check_rate_limit_step w0 limit W t
      (fun x hx => hwin x (List.mem_append_left _ hx) t (List.mem_cons_self t ts))
      (fun x hx => hcross x hx t (List.mem_cons_self t ts))
    have hp' : ((w0 ++ [t]) ++ ts).Pairwise (· < ·) := by
      rw [List.append_assoc, List.singleton_append]
      exact hp
    have hwin' : ∀ x ∈ (w0 ++ [t]) ++ ts, ∀ y ∈ ts, y - W < x := by
      rw [List.append_assoc, List.singleton_append]
      exact fun x hx y hy => hwin x hx y (List.mem_cons_of_mem t hy)
    have ihh := ih (w0 ++ [t]) hp' hwin'
    constructor
    · show (rlRun limit W w0 (t :: ts)).1 = _
      simp only [rlRun, hstep, ihh.1]
      rw [List.length_cons, List.range_succ_eq_map, List.map_cons, List.map_map]
      congr 1
      apply List.map_congr_left
      intro i _
      simp only [Function.comp_apply, Nat.succ_eq_add_one, List.length_append,
        List.length_singleton]
      have he : w0.length + 1 + i = w0.length + (i + 1) := by omega
      rw [he]
    · show (rlRun limit W w0 (t :: ts)).2 = _
      simp only [rlRun, hstep, ihh.2]
      rw [List.append_assoc, List.singleton_append]

end RateLimiter

/-- C10: per call, `check_rate_limit` evicts the timestamps that have aged
out of the sliding window (survivors are exactly the stored timestamps not
in `[0, now - window_seconds]`), admits the request iff the post-eviction
count is below the limit, returns `remaining = max(0, limit - count - 1)`
and `retry_after = window_seconds` when denied else 0, and records the new
timestamp regardless of the decision; consequently, for strictly
increasing request times all inside one window, the first `limit` requests
are admitted, the `(limit+1)`-th is denied with
`retry_after = window_seconds`, and once every stored timestamp has aged
out admission resumes. -/
theorem C10_rate_limiter :
    (∀ (window : List ℚ) (limit : Nat) (W now : ℚ),
      (RateLimiter.check_rate_limit window limit W now).1.is_allowed
          = decide ((RateLimiter.evictedWindow window W now).length < limit)
      ∧ (RateLimiter.check_rate_limit window limit W now).1.remaining
          = limit - (RateLimiter.evictedWindow window W now).length - 1
      ∧ (RateLimiter.check_rate_limit window limit W now).1.retry_after
          = (if limit ≤ (RateLimiter.evictedWindow window W now).length then W else 0)
      ∧ now ∈ (RateLimiter.check_rate_limit window limit W now).2
      ∧ (∀ x : ℚ, x ∈ RateLimiter.evictedWindow window W now ↔
            x ∈ window ∧ ¬ (0 ≤ x ∧ x ≤ now - W)))
    ∧ (∀ (limit : Nat) (W : ℚ) (times : List ℚ),
        times.length = limit + 1 →
        times.Pairwise (· < ·) →
        (∀ x ∈ times, ∀ y ∈ times, y - W < x) →
        (RateLimiter.rlRun limit W [] times).1
          = (List.range limit).map (fun _ => ((true : Bool), (0 : ℚ))) ++ [(false, W)])
    ∧ (∀ (limit : Nat) (W now : ℚ) (window : List ℚ),
        0 < limit → (∀ x ∈ window, 0 ≤ x ∧ x ≤ now - W) →
        (RateLimiter.check_rate_limit window limit W now).1.is_allowed = true
        ∧ (RateLimiter.check_rate_limit window limit W now).1.retry_after = 0) := by
  refine ⟨fun window limit W now => ⟨rfl, rfl, rfl, ?_, ?_⟩, ?_, ?_⟩
  · unfold RateLimiter.check_rate_limit
    by_cases hmem : now ∈ RateLimiter.evictedWindow window W now
    · simp [hmem]
    · simp [hmem]
  · intro x
    unfold RateLimiter.evictedWindow
    simp only [List.mem_filter, decide_eq_true_iff]
  · intro limit W times hlen hp hwin
    have h := (RateLimiter.rlRun_all_within limit W times []
      (by simpa using hp) (by simpa using hwin)).1
    rw [h, hlen, List.range_succ, List.map_append]
    congr 1
    · apply List.map_congr_left
      intro i hi
      have hilt : i < limit := List.mem_range.mp hi
      simp [hilt, Nat.not_le.mpr hilt]
    · simp
  · intro limit W now window hlim hold
    have hkept : RateLimiter.evictedWindow window W now = [] := by
      apply List.filter_eq_nil_iff.mpr
      intro a ha
      simp only [decide_eq_true_iff]
      intro hcon
      exact hcon (hold a ha)
    unfold RateLimiter.check_rate_limit
    rw [hkept]
    simp [hlim, Nat.not_le.mpr hlim]

/-- Witness for C10: with limit 2 and a 10-second window, three requests at
times 0, 1, 2 yield admit, admit, deny-with-retry-after-10; a later
request at time 20 against the aged-out window is admitted. -/
theorem C10_rate_limiter_witness :
    (RateLimiter.rlRun 2 10 [] [0, 1, 2]).1 = [(true, 0), (true, 0), (false, 10)]
    ∧ (RateLimiter.check_rate_limit [0, 1, 2] 2 10 20).1.is_allowed = true := by
  constructor
  · have h := C10_rate_limiter.2.1 2 10 [0, 1, 2] (by rfl) (by norm_num) (by
      intro x hx y hy
      fin_cases hx <;> fin_cases hy <;> norm_num)
    rw [h]
    rfl
  · exact (C10_rate_limiter.2.2 2 10 20 [0, 1, 2] (by norm_num) (by
      intro x hx
      fin_cases hx <;> norm_num)).1

end PaymentGateway
